import Mathlib

/-!
Shallow embedding of the Event-Paradise notification subsystem
(`src/utils/notification_service.py`, `src/utils/scheduler_service.py`,
`src/utils/email_service.py`, `src/utils/sms_service.py`).

Python dictionaries are modelled as association lists with insertion-order
semantics (`dictSet` updates the first occurrence in place, otherwise
appends).  Timestamps are naturals (seconds).  `socketio.emit` calls are
recorded in an output list of `Emit` actions.  Operations whose Python body
sits inside a `try/except` are modelled in two layers: an `Except`-valued
body in which the fallible transport call may raise, and the public
function that catches every error exactly as the `except` clause does.
-/

namespace EventParadise

/-- The fields a caller may place in the `notification_data` dict read by
`send_notification` via `.get` with defaults (keys `type`, `subtype`,
`title`, `message`, `data`).  A `none` field models an absent key.
Values of the nested `data` dict are modelled as strings. -/
structure NotificationData where
  ntype : Option String
  subtype : Option String
  title : Option String
  message : Option String
  data : Option (List (String × String))
deriving Repr, DecidableEq

/-- The notification dict built by `send_notification` (fields `user_id`,
`type`, `title`, `message`, `data`, `created_at`, `read`; the `id`
string derived from the wall clock is dropped, `created_at` keeps the
timestamp as a natural). -/
structure Notification where
  user_id : Nat
  ntype : String
  title : String
  message : String
  data : List (String × String)
  created_at : Nat
  read : Bool
deriving Repr, DecidableEq

/-- The broadcast dict built by `send_broadcast_notification` (no
`user_id`/`read`, carries `broadcast: True`). -/
structure BroadcastPayload where
  ntype : String
  title : String
  message : String
  data : List (String × String)
  created_at : Nat
deriving Repr, DecidableEq

/-- One `socketio.emit` call: a `notification` event to a room, a
broadcast `notification` event to a room, or the `connection_established`
event sent by the connect handler. -/
inductive Emit where
  | push (room : String) (n : Notification)
  | pushBroadcast (room : String) (b : BroadcastPayload)
  | connEstablished (uid : Option Nat)
deriving Repr, DecidableEq

/-- `NotificationService`s mutable state: `self.connected_users`
(user id -> socket id) and `self.user_notifications`
(user id -> pending list), both Python dicts kept as ordered
association lists. -/
structure NSState where
  connected_users : List (Nat × String)
  user_notifications : List (Nat × List Notification)
deriving Repr, DecidableEq

/-- Python `d[k] = v`: replace the value at the first occurrence of `k`,
otherwise append `(k, v)` at the end (dict insertion order). -/
def dictSet {α : Type} : List (Nat × α) → Nat → α → List (Nat × α)
  | [], k, v => [(k, v)]
  | p :: t, k, v => if p.1 = k then (k, v) :: t else p :: dictSet t k v

theorem lookup_dictSet_self {α : Type} (l : List (Nat × α)) (k : Nat) (v : α) :
    (dictSet l k v).lookup k = some v := by
  induction l with
  | nil => simp [dictSet, List.lookup]
  | cons p t ih =>
    obtain ⟨pk, pv⟩ := p
    by_cases h : pk = k
    · simp [dictSet, h, List.lookup]
    · simp only [dictSet, h, if_false]
      have hb : (k == pk) = false := by
        simp [beq_eq_false_iff_ne]
        exact fun hk => h hk.symm
      simp [List.lookup, hb, ih]

/-- Python truthiness of a nullable integer column (`if event.organizer_id:`):
`None` and `0` are falsy. -/
def pyTruthyNat : Option Nat → Bool
  | none => false
  | some n => n != 0

/-- Python truthiness of a nullable string column (`if guest.phone:`):
`None` and the empty string are falsy. -/
def pyTruthyStr : Option String → Bool
  | none => false
  | some s => s != ""

/-- The notification dict literal built at the top of `send_notification`:
`notification_data.get` with defaults `info` / empty / empty dict,
`read = False`. -/
def mkNotification (user_id : Nat) (nd : NotificationData) (now : Nat) : Notification :=
  { user_id := user_id
    ntype := nd.ntype.getD "info"
    title := nd.title.getD ""
    message := nd.message.getD ""
    data := nd.data.getD []
    created_at := now
    read := false }

/-- The `try`-block of `NotificationService.send_notification`.  The
`socketio.emit` transport call is the fallible operation: `emitExc = some e`
means it raises exception `e` (propagated here as `Except.error`), which in
the source is only reached on the connected branch.  Result: new state,
returned bool, emitted events. -/
def send_notification_body (s : NSState) (user_id : Nat) (nd : NotificationData)
    (now : Nat) (emitExc : Option String) :
    Except String (NSState × Bool × List Emit) :=
  let n := mkNotification user_id nd now
  match s.connected_users.lookup user_id with
  | some sid =>
    match emitExc with
    | some e => Except.error e
    | none => Except.ok (s, true, [Emit.push sid n])
  | none =>
    let q := (s.user_notifications.lookup user_id).getD []
    Except.ok
      ({ s with user_notifications := dictSet s.user_notifications user_id (q ++ [n]) },
       true, [])

/-- `NotificationService.send_notification`: runs the body and, like the
`except Exception` clause, turns any raised exception into a logged
`False` with no state change and no emit. -/
def send_notification (s : NSState) (user_id : Nat) (nd : NotificationData)
    (now : Nat) (emitExc : Option String) : NSState × Bool × List Emit :=
  match send_notification_body s user_id nd now emitExc with
  | Except.ok r => r
  | Except.error _ => (s, false, [])

/-- The `connect` handler registered in `_register_socket_handlers`.
`authUser = some u` models `current_user.is_authenticated` with id `u`,
`sid` is `request.sid`.  It registers the connection, re-inserts the
pending list (`.get(user_id, [])`), emits each pending notification to the
new socket in list order, clears the pending list, and finally emits
`connection_established`. -/
def handle_connect (s : NSState) (authUser : Option Nat) (sid : String) :
    NSState × List Emit :=
  match authUser with
  | some user_id =>
    let s1 : NSState :=
      { connected_users := dictSet s.connected_users user_id sid
        user_notifications :=
          dictSet s.user_notifications user_id
            ((s.user_notifications.lookup user_id).getD []) }
    let pending := (s1.user_notifications.lookup user_id).getD []
    let emits := pending.map (fun n => Emit.push sid n)
    let s2 : NSState :=
      { s1 with user_notifications := dictSet s1.user_notifications user_id [] }
    (s2, emits ++ [Emit.connEstablished (some user_id)])
  | none => (s, [Emit.connEstablished none])

/-- Whether an emitted event is a `notification` push to a room (as
opposed to the `connection_established` event). -/
def isNotifPush : Emit → Bool
  | Emit.push _ _ => true
  | Emit.pushBroadcast _ _ => true
  | Emit.connEstablished _ => false

/-- The broadcast dict literal built by `send_broadcast_notification`. -/
def mkBroadcast (nd : NotificationData) (now : Nat) : BroadcastPayload :=
  { ntype := nd.ntype.getD "info"
    title := nd.title.getD ""
    message := nd.message.getD ""
    data := nd.data.getD []
    created_at := now }

/-- `NotificationService.send_broadcast_notification`: iterates
`self.connected_users.items()` in dict order, emits the same payload to
each socket id and counts; the `user_role` argument is accepted but (as
the source comments) never consulted.  No queue is touched.  Result:
state, returned count, emitted events. -/
def send_broadcast_notification (s : NSState) (nd : NotificationData)
    (user_role : Option String) (now : Nat) : NSState × Nat × List Emit :=
  let b := mkBroadcast nd now
  let _ := user_role
  let emits := s.connected_users.map (fun p => Emit.pushBroadcast p.2 b)
  (s, s.connected_users.length, emits)

/-- `NotificationService.cleanup_old_notifications`: the body computes a
cutoff date, initialises `cleaned_count = 0`, performs no removal (the
source comments that a real implementation would clean up a database) and
returns the counter, i.e. `0`, leaving the state untouched. -/
def cleanup_old_notifications (s : NSState) (now : Nat) (days : Nat) :
    NSState × Nat :=
  let _ := now - days * 86400
  (s, 0)

/-- `SchedulerService.cleanup_notifications` (the `notification_cleanup`
job body): calls `cleanup_old_notifications` with `days = 30` and logs the
returned count. -/
def cleanup_notifications (s : NSState) (now : Nat) : NSState × Nat :=
  cleanup_old_notifications s now 30

/-- Whether some pending notification in the state was created more than
`days` days (of 86400 seconds) before `now`. -/
def hasNotificationOlderThan (s : NSState) (now days : Nat) : Bool :=
  s.user_notifications.any
    (fun p => p.2.any (fun n => n.created_at + days * 86400 < now))

/-- The `try`-block of `EmailService.send_email`.  `mailConfigured` models
`self.app.config.get(MAIL_USERNAME)` being truthy; `transportExc` models
the `mail.send(msg)` transport call raising (`some e`) or succeeding
(`none`); message construction and template rendering are pure here. -/
def send_email_body (mailConfigured : Bool) (transportExc : Option String) :
    Except String Bool :=
  if !mailConfigured then Except.ok false
  else
    match transportExc with
    | some e => Except.error e
    | none => Except.ok true

/-- `EmailService.send_email`: the body under the `except Exception`
clause, which logs and returns `False` on any raised exception. -/
def send_email (mailConfigured : Bool) (transportExc : Option String) : Bool :=
  match send_email_body mailConfigured transportExc with
  | Except.ok b => b
  | Except.error _ => false

/-- The `try`-block of `SMSService.send_sms`.  `hasClient` models
`self.client` being set; without a client the send is simulated and
returns `True`; with a client the Twilio `messages.create` call may raise
(`transportExc = some e`). -/
def send_sms_body (hasClient : Bool) (transportExc : Option String) :
    Except String Bool :=
  if !hasClient then Except.ok true
  else
    match transportExc with
    | some e => Except.error e
    | none => Except.ok true

/-- `SMSService.send_sms`: the body under the `except Exception` clause,
which logs and returns `False` on any raised exception. -/
def send_sms (hasClient : Bool) (transportExc : Option String) : Bool :=
  match send_sms_body hasClient transportExc with
  | Except.ok b => b
  | Except.error _ => false

/-- The `Guest` row from `app.py` (the columns the notification and
scheduler code reads). -/
structure Guest where
  gid : Nat
  name : String
  email : String
  phone : Option String
  ticket_number : String
  rsvp_status : String
  check_in_status : Bool
deriving Repr, DecidableEq

/-- The `Event` row from `app.py` with its `guests` relationship.
`start_date` is a timestamp in seconds; `organizer_id` is the nullable
integer foreign key. -/
structure Event where
  eid : Nat
  title : String
  start_date : Nat
  status : String
  organizer_id : Option Nat
  guests : List Guest
deriving Repr, DecidableEq

/-- The `Payment` row fields read by `_get_payment_message`.
`amountStr` stands for the decimal rendering of the float column
`amount` produced by the `:.2f` format spec (float formatting itself is
kept opaque). -/
structure Payment where
  pid : Nat
  amountStr : String
  payment_type : String
  transaction_id : String
  status : String
deriving Repr, DecidableEq

/-- `str.replace` of underscores by spaces, as in
`notification_type.replace` inside the title construction. -/
def pyReplaceUnderscores (s : String) : String :=
  String.map (fun c => if c = '_' then ' ' else c) s

/-- Character list worker for `str.title`: upper-case a letter that does
not follow a letter, lower-case one that does. -/
def pyTitleAux : List Char → Bool → List Char
  | [], _ => []
  | c :: cs, prevAlpha =>
    if c.isAlpha then
      (if prevAlpha then c.toLower else c.toUpper) :: pyTitleAux cs true
    else
      c :: pyTitleAux cs false

/-- Python `str.title` (ASCII case mapping). -/
def pyTitle (s : String) : String :=
  ⟨pyTitleAux s.data false⟩

/-- `NotificationService._get_event_message`: the subtype-to-text table
with its `.get` fallback (apostrophes written as the escape x27). -/
def get_event_message (e : Event) (t : String) : String :=
  if t = "event_created" then "New event \x27" ++ e.title ++ "\x27 has been created."
  else if t = "event_updated" then "Event \x27" ++ e.title ++ "\x27 has been updated."
  else if t = "event_cancelled" then "Event \x27" ++ e.title ++ "\x27 has been cancelled."
  else if t = "event_reminder" then "Reminder: Event \x27" ++ e.title ++ "\x27 is coming up soon."
  else if t = "event_started" then "Event \x27" ++ e.title ++ "\x27 has started."
  else if t = "event_completed" then "Event \x27" ++ e.title ++ "\x27 has been completed."
  else "Update for event \x27" ++ e.title ++ "\x27."

/-- `NotificationService._get_payment_message`: subtype table with `.get`
fallback. -/
def get_payment_message (p : Payment) (t : String) : String :=
  if t = "payment_received" then "Payment of $" ++ p.amountStr ++ " has been received."
  else if t = "payment_failed" then "Payment of $" ++ p.amountStr ++ " has failed."
  else if t = "payment_refunded" then "Payment of $" ++ p.amountStr ++ " has been refunded."
  else if t = "payment_pending" then "Payment of $" ++ p.amountStr ++ " is pending."
  else "Payment update for $" ++ p.amountStr ++ "."

/-- `NotificationService._get_guest_message`: subtype table with `.get`
fallback. -/
def get_guest_message (g : Guest) (e : Event) (t : String) : String :=
  if t = "guest_registered" then g.name ++ " has registered for \x27" ++ e.title ++ "\x27."
  else if t = "guest_checked_in" then g.name ++ " has checked in for \x27" ++ e.title ++ "\x27."
  else if t = "guest_rsvp_confirmed" then g.name ++ " has confirmed RSVP for \x27" ++ e.title ++ "\x27."
  else if t = "guest_rsvp_declined" then g.name ++ " has declined RSVP for \x27" ++ e.title ++ "\x27."
  else "Guest update for " ++ g.name ++ "."

/-- The keys of the `_get_event_message` table. -/
def eventSubtypes : List String :=
  ["event_created", "event_updated", "event_cancelled",
   "event_reminder", "event_started", "event_completed"]

/-- The keys of the `_get_payment_message` table. -/
def paymentSubtypes : List String :=
  ["payment_received", "payment_failed", "payment_refunded", "payment_pending"]

/-- The keys of the `_get_guest_message` table. -/
def guestSubtypes : List String :=
  ["guest_registered", "guest_checked_in", "guest_rsvp_confirmed", "guest_rsvp_declined"]

/-- `NotificationService.send_event_notification` (exception-free path):
builds the event `notification_data`, sends it to the organizer when
`event.organizer_id` is truthy, and returns `1` on both exits of the
source (the guest loop only executes `pass`).  `extra` is the `data`
keyword argument merged into the payload dict. -/
def send_event_notification (s : NSState) (e : Event) (t : String)
    (extra : List (String × String)) (now : Nat) : NSState × Nat × List Emit :=
  let nd : NotificationData :=
    { ntype := some "event"
      subtype := some t
      title := some ("Event Update: " ++ e.title)
      message := some (get_event_message e t)
      data := some ([("event_id", toString e.eid), ("event_title", e.title),
                     ("event_status", e.status)] ++ extra) }
  if pyTruthyNat e.organizer_id then
    let r := send_notification s (e.organizer_id.getD 0) nd now none
    (r.1, 1, r.2.2)
  else
    (s, 1, [])

/-- `NotificationService.send_guest_notification` (exception-free path):
builds the guest `notification_data` and forwards it to the organizer via
`send_notification` when `event.organizer_id` is truthy, otherwise
returns `False`. -/
def send_guest_notification (s : NSState) (g : Guest) (e : Event) (t : String)
    (now : Nat) : NSState × Bool × List Emit :=
  let nd : NotificationData :=
    { ntype := some "guest"
      subtype := some t
      title := some ("Guest " ++ pyTitle (pyReplaceUnderscores t))
      message := some (get_guest_message g e t)
      data := some [("guest_id", toString g.gid), ("guest_name", g.name),
                    ("event_id", toString e.eid), ("event_title", e.title),
                    ("ticket_number", g.ticket_number)] }
  if pyTruthyNat e.organizer_id then
    send_notification s (e.organizer_id.getD 0) nd now none
  else
    (s, false, [])

/-- One adapter call performed by the `daily_event_reminders` job body:
`email_service.send_event_reminder(guest, event)` or
`sms_service.send_event_reminder(guest, event)`, identified by the guest
and event ids. -/
inductive SendAction where
  | emailReminder (guestId : Nat) (eventId : Nat)
  | smsReminder (guestId : Nat) (eventId : Nat)
deriving Repr, DecidableEq

/-- The event id an action is about. -/
def actionEventId : SendAction → Nat
  | SendAction.emailReminder _ e => e
  | SendAction.smsReminder _ e => e

/-- The guest id an action is about. -/
def actionGuestId : SendAction → Nat
  | SendAction.emailReminder g _ => g
  | SendAction.smsReminder g _ => g

/-- The query filter of `send_daily_event_reminders`:
`Event.start_date.between(now + 1 day, now + 3 days)` (SQL `BETWEEN` is
inclusive) and `Event.status.in_((planned, ongoing))`. -/
def inReminderWindow (now : Nat) (e : Event) : Bool :=
  decide (now + 86400 ≤ e.start_date) &&
  decide (e.start_date ≤ now + 3 * 86400) &&
  (e.status == "planned" || e.status == "ongoing")

/-- The adapter calls the reminder loop makes for one guest of one event:
an email reminder, plus an SMS reminder when `guest.phone` is truthy,
for guests with `rsvp_status == confirmed` and falsy `check_in_status`;
nothing otherwise. -/
def guestReminderActions (e : Event) (g : Guest) : List SendAction :=
  if g.rsvp_status = "confirmed" ∧ g.check_in_status = false then
    SendAction.emailReminder g.gid e.eid ::
      (if pyTruthyStr g.phone then [SendAction.smsReminder g.gid e.eid] else [])
  else []

/-- The full action trace of one run of the `daily_event_reminders` job
body over the events table `events` at time `now`: the query keeps events
in the reminder window, then the nested loops visit each guest of each
kept event in order. -/
def dailyReminderActions (events : List Event) (now : Nat) : List SendAction :=
  (events.filter (inReminderWindow now)).flatMap
    (fun e => e.guests.flatMap (guestReminderActions e))

/-- `SchedulerService.send_daily_event_reminders` up to and including the
database query, whose app-context/query machinery may raise
(`dbq = Except.error e`); on a successful query the loop body is the pure
action trace. -/
def send_daily_event_reminders_body (dbq : Except String (List Event))
    (now : Nat) : Except String (List SendAction) :=
  match dbq with
  | Except.error e => Except.error e
  | Except.ok events => Except.ok (dailyReminderActions events now)

/-- `SchedulerService.send_daily_event_reminders` with its `except
Exception` clause: a raised exception is logged and swallowed, the job
completing no sends for that tick. -/
def send_daily_event_reminders_job (dbq : Except String (List Event))
    (now : Nat) : Except String (List SendAction) :=
  match send_daily_event_reminders_body dbq now with
  | Except.ok acts => Except.ok acts
  | Except.error _ => Except.ok []

/-- `SchedulerService.cleanup_old_data` with its `except Exception`
clause: `deleteRes` models the delete-and-commit of old feedback rows
returning the deleted count or raising; on a raise the job logs,
swallows, and commits nothing (`none`). -/
def cleanup_old_data_job (deleteRes : Except String Nat) :
    Except String (Option Nat) :=
  match deleteRes with
  | Except.ok n => Except.ok (some n)
  | Except.error _ => Except.ok none

/-- Occurrence count of an action in a trace. -/
def countA (a : SendAction) : List SendAction → Nat
  | [] => 0
  | b :: t => (if b = a then 1 else 0) + countA a t

theorem countA_append (a : SendAction) (l₁ l₂ : List SendAction) :
    countA a (l₁ ++ l₂) = countA a l₁ + countA a l₂ := by
  induction l₁ with
  | nil => simp [countA]
  | cons b t ih => simp [countA, ih]; omega

theorem countA_eq_zero_of_not_mem (a : SendAction) (l : List SendAction)
    (h : a ∉ l) : countA a l = 0 := by
  induction l with
  | nil => rfl
  | cons b t ih =>
    simp only [List.mem_cons, not_or] at h
    simp [countA, Ne.symm h.1, ih h.2]

theorem countA_bind {α : Type} (a : SendAction) (l : List α)
    (f : α → List SendAction) :
    countA a (l.flatMap f) = (l.map (fun x => countA a (f x))).sum := by
  induction l with
  | nil => rfl
  | cons b t ih => simp only [List.flatMap_cons, countA_append, ih, List.map_cons,
      List.sum_cons]

theorem sum_map_filter_eq {α : Type} (l : List α) (q : α → Bool) (g : α → Nat)
    (h : ∀ x ∈ l, q x = false → g x = 0) :
    (l.map g).sum = ((l.filter q).map g).sum := by
  induction l with
  | nil => rfl
  | cons x t ih =>
    have ht : ∀ y ∈ t, q y = false → g y = 0 :=
      fun y hy => h y (List.mem_cons_of_mem _ hy)
    by_cases hq : q x = true
    · simp [List.filter_cons, hq, ih ht]
    · have hx : g x = 0 := h x (List.mem_cons_self _ _) (by simpa using hq)
      simp [List.filter_cons, hq, hx, ih ht]

theorem mem_guestReminderActions_tags (e : Event) (g : Guest) (a : SendAction)
    (ha : a ∈ guestReminderActions e g) :
    actionEventId a = e.eid ∧ actionGuestId a = g.gid := by
  unfold guestReminderActions at ha
  split at ha
  · rcases List.mem_cons.mp ha with h | h
    · subst h; exact ⟨rfl, rfl⟩
    · cases hp : pyTruthyStr g.phone
      · rw [hp] at h; simp at h
      · rw [hp] at h; simp at h; subst h; exact ⟨rfl, rfl⟩
  · simp at ha

theorem countA_guest_eq_zero (e : Event) (g : Guest) (a : SendAction)
    (h : actionGuestId a ≠ g.gid) :
    countA a (guestReminderActions e g) = 0 := by
  apply countA_eq_zero_of_not_mem
  intro hmem
  exact h (mem_guestReminderActions_tags e g a hmem).2

theorem countA_guests_eq_zero (e : Event) (a : SendAction)
    (h : actionEventId a ≠ e.eid) :
    countA a (e.guests.flatMap (guestReminderActions e)) = 0 := by
  rw [countA_bind]
  apply List.sum_eq_zero
  intro x hx
  rcases List.mem_map.mp hx with ⟨g, _, rfl⟩
  apply countA_eq_zero_of_not_mem
  intro hmem
  exact h (mem_guestReminderActions_tags e g a hmem).1

theorem countA_daily_eq (events : List Event) (now : Nat) (E : Event) (G : Guest)
    (a : SendAction)
    (hE : events.filter (fun e => e.eid == E.eid) = [E])
    (hW : inReminderWindow now E = true)
    (hG : E.guests.filter (fun g => g.gid == G.gid) = [G])
    (haE : actionEventId a = E.eid) (haG : actionGuestId a = G.gid) :
    countA a (dailyReminderActions events now) =
      countA a (guestReminderActions E G) := by
  unfold dailyReminderActions
  rw [countA_bind]
  have h1 : ((events.filter (inReminderWindow now)).map
      (fun e => countA a (e.guests.flatMap (guestReminderActions e)))).sum =
      (((events.filter (inReminderWindow now)).filter (fun e => e.eid == E.eid)).map
      (fun e => countA a (e.guests.flatMap (guestReminderActions e)))).sum := by
    apply sum_map_filter_eq
    intro e _ hne
    apply countA_guests_eq_zero
    rw [haE]
    exact Ne.symm (by simpa [beq_eq_false_iff_ne] using hne)
  have h2 : (events.filter (inReminderWindow now)).filter
      (fun e => e.eid == E.eid) = [E] := by
    rw [List.filter_comm, hE]
    simp [List.filter_cons, hW]
  rw [h1, h2]
  simp only [List.map_cons, List.map_nil, List.sum_cons, List.sum_nil, Nat.add_zero]
  rw [countA_bind]
  have h3 : (E.guests.map (fun g => countA a (guestReminderActions E g))).sum =
      ((E.guests.filter (fun g => g.gid == G.gid)).map
      (fun g => countA a (guestReminderActions E g))).sum := by
    apply sum_map_filter_eq
    intro g _ hne
    apply countA_guest_eq_zero
    rw [haG]
    exact Ne.symm (by simpa [beq_eq_false_iff_ne] using hne)
  rw [h3, hG]
  simp

/-- Spec-side target set of `broadcast`: the connected users restricted by
the optional role filter, given a role assignment.  Modelled from the
spec's words (the source never consults roles) for comparison with
`send_broadcast_notification`. -/
def broadcastSpecTargets (s : NSState) (roles : Nat → String)
    (user_role : Option String) : List (Nat × String) :=
  s.connected_users.filter
    (fun p => match user_role with
      | none => true
      | some r => roles p.1 == r)

/-- Example: the empty notification-service state. -/
def emptyState : NSState := { connected_users := [], user_notifications := [] }

/-- Example: a state with user 1 connected on socket s1. -/
def connState : NSState :=
  { connected_users := [(1, "s1")], user_notifications := [] }

/-- Example notification data. -/
def ndEx : NotificationData :=
  { ntype := some "info", subtype := none, title := some "T",
    message := some "M", data := none }

/-- C1 counterexample: user 7 is absent from `connected_users` of the
empty state, yet `send_notification` returns true, not the claimed
false. -/
theorem C1_counterexample_offline_returns_true :
    emptyState.connected_users.lookup 7 = none ∧
    (send_notification emptyState 7 ndEx 100 none).2.1 ≠ false := by
  decide

/-- C1 (amended): for every user U not present in `connected_users`, a
call to `send_notification` appends exactly one notification to
`user_notifications[U]`, emits nothing, and returns true (the source's
offline branch returns `True`, where the claim said false). -/
theorem C1_offline_queues_one_returns_true (s : NSState) (u : Nat)
    (nd : NotificationData) (now : Nat) (exc : Option String)
    (h : s.connected_users.lookup u = none) :
    (send_notification s u nd now exc).2.1 = true ∧
    (send_notification s u nd now exc).1.user_notifications.lookup u =
      some (((s.user_notifications.lookup u).getD []) ++
        [mkNotification u nd now]) ∧
    (send_notification s u nd now exc).2.2 = [] := by
  simp [send_notification, send_notification_body, h, lookup_dictSet_self]

/-- Witness for C1 (amended) at a concrete offline send. -/
theorem C1_offline_witness :
    (send_notification emptyState 7 ndEx 100 none).2.1 = true ∧
    (send_notification emptyState 7 ndEx 100 none).1.user_notifications.lookup 7 =
      some (((emptyState.user_notifications.lookup 7).getD []) ++
        [mkNotification 7 ndEx 100]) ∧
    (send_notification emptyState 7 ndEx 100 none).2.2 = [] :=
  C1_offline_queues_one_returns_true emptyState 7 ndEx 100 none rfl

/-- C2: for every user U present in `connected_users` (with a successful
emit), `send_notification` emits exactly one push to U's socket, returns
true, and leaves the whole state — in particular `user_notifications[U]`
— unchanged. -/
theorem C2_connected_push_once (s : NSState) (u : Nat) (nd : NotificationData)
    (now : Nat) (sid : String)
    (h : s.connected_users.lookup u = some sid) :
    (send_notification s u nd now none).2.2 =
      [Emit.push sid (mkNotification u nd now)] ∧
    (send_notification s u nd now none).2.1 = true ∧
    (send_notification s u nd now none).1 = s := by
  simp [send_notification, send_notification_body, h]

/-- Witness for C2 at a concrete connected send. -/
theorem C2_connected_witness :
    (send_notification connState 1 ndEx 100 none).2.2 =
      [Emit.push "s1" (mkNotification 1 ndEx 100)] ∧
    (send_notification connState 1 ndEx 100 none).2.1 = true ∧
    (send_notification connState 1 ndEx 100 none).1 = connState :=
  C2_connected_push_once connState 1 ndEx 100 "s1" rfl

theorem filter_isNotifPush_map_push (sid : String) (l : List Notification) :
    (l.map (fun n => Emit.push sid n)).filter isNotifPush =
      l.map (fun n => Emit.push sid n) :=
  List.filter_eq_self.mpr (by
    intro a ha
    rcases List.mem_map.mp ha with ⟨n, _, rfl⟩
    rfl)

/-- C3: the connect handler pushes each pending notification of the
connecting user to the new socket in FIFO (insertion) order, the number
of pushes equals the prior queue length (zero for an empty or missing
queue — the drain of an empty queue is a no-op), and the pending queue is
left empty. -/
theorem C3_connect_drains_fifo (s : NSState) (u : Nat) (sid : String) :
    (handle_connect s (some u) sid).2 =
      ((s.user_notifications.lookup u).getD []).map (fun n => Emit.push sid n) ++
        [Emit.connEstablished (some u)] ∧
    ((handle_connect s (some u) sid).2.filter isNotifPush).length =
      ((s.user_notifications.lookup u).getD []).length ∧
    (handle_connect s (some u) sid).1.user_notifications.lookup u = some [] := by
  refine ⟨?_, ?_, ?_⟩
  · simp [handle_connect, lookup_dictSet_self]
  · simp [handle_connect, lookup_dictSet_self, List.filter_append,
      filter_isNotifPush_map_push, isNotifPush]
  · simp [handle_connect, lookup_dictSet_self]

/-- C4 counterexample: one connected user of role guest and a role filter
admin — the role-restricted target set is empty, yet the source pushes to
that user and returns 1: the role filter is never applied. -/
theorem C4_counterexample_role_filter_ignored :
    broadcastSpecTargets connState (fun _ => "guest") (some "admin") = [] ∧
    (send_broadcast_notification connState ndEx (some "admin") 100).2.1 = 1 ∧
    (send_broadcast_notification connState ndEx (some "admin") 100).2.2 ≠ [] := by
  decide

/-- C4 (amended): `send_broadcast_notification` pushes the identical
payload to exactly the currently connected users regardless of the role
argument, returns the number of connected users, and leaves the state —
hence every pending queue — unchanged (offline users are not queued). -/
theorem C4_broadcast_all_connected (s : NSState) (nd : NotificationData)
    (role : Option String) (now : Nat) :
    (send_broadcast_notification s nd role now).2.2 =
      s.connected_users.map
        (fun p => Emit.pushBroadcast p.2 (mkBroadcast nd now)) ∧
    (send_broadcast_notification s nd role now).2.1 =
      s.connected_users.length ∧
    (send_broadcast_notification s nd role now).1 = s := by
  simp [send_broadcast_notification]

/-- Example: a pending notification created at time 0 for user 1. -/
def oldNotif : Notification :=
  { user_id := 1, ntype := "info", title := "t", message := "m",
    data := [], created_at := 0, read := false }

/-- Example: a state holding only `oldNotif`, 40 days old at time
3456000, in user 1's queue. -/
def oldNotifState : NSState :=
  { connected_users := [], user_notifications := [(1, [oldNotif])] }

/-- C5: at a state holding a notification 40 days old, the
`notification_cleanup` job (`cleanup_notifications`, which calls
`cleanup_old_notifications` with days = 30) removes nothing and returns
0, leaving the over-age notification in place: the 30-day purge the
claim describes is a stub in the source. -/
theorem C5_cleanup_removes_nothing :
    cleanup_notifications oldNotifState 3456000 = (oldNotifState, 0) ∧
    hasNotificationOlderThan oldNotifState 3456000 30 = true := by
  decide

/-- C6: exceptions never escape the adapters: when the push raises while
the target user is connected, `send_notification` catches it and returns
false with no state change and no emit; `send_email` returns a boolean
for every input, false whenever mail is unconfigured or the transport
raises; `send_sms` returns a boolean for every input, false exactly when
a real client's transport raises. -/
theorem C6_adapters_never_raise :
    (∀ (s : NSState) (u : Nat) (nd : NotificationData) (now : Nat)
        (e sid : String), s.connected_users.lookup u = some sid →
        send_notification s u nd now (some e) = (s, false, [])) ∧
    (∀ (cfg : Bool) (exc : Option String),
        send_email cfg exc = (cfg && exc.isNone)) ∧
    (∀ (client : Bool) (exc : Option String),
        send_sms client exc = (!client || exc.isNone)) := by
  refine ⟨?_, ?_, ?_⟩
  · intro s u nd now e sid h
    simp [send_notification, send_notification_body, h]
  · intro cfg exc
    cases cfg <;> cases exc <;> rfl
  · intro client exc
    cases client <;> cases exc <;> rfl

/-- Witness for C6: a raising push to connected user 1 yields false with
the state untouched; failing email and SMS transports yield false. -/
theorem C6_adapters_witness :
    send_notification connState 1 ndEx 100 (some "boom") = (connState, false, []) ∧
    send_email true (some "smtp down") = false ∧
    send_sms true (some "twilio down") = false := by
  refine ⟨C6_adapters_never_raise.1 connState 1 ndEx 100 "boom" "s1" rfl, ?_, ?_⟩
  · simpa using C6_adapters_never_raise.2.1 true (some "smtp down")
  · simpa using C6_adapters_never_raise.2.2 true (some "twilio down")

/-- C7: a scheduler job's internal exception is caught at the job
boundary: both cited jobs return normally (`Except.ok`) for every body
outcome, so nothing propagates to the scheduler; when the body raised,
the reminder job completed no sends and the cleanup job committed no
deletion for that tick. -/
theorem C7_job_exceptions_contained :
    (∀ (dbq : Except String (List Event)) (now : Nat),
        ∃ acts, send_daily_event_reminders_job dbq now = Except.ok acts) ∧
    (∀ (e : String) (now : Nat),
        send_daily_event_reminders_job (Except.error e) now = Except.ok []) ∧
    (∀ res : Except String Nat, ∃ r, cleanup_old_data_job res = Except.ok r) ∧
    (∀ e : String, cleanup_old_data_job (Except.error e) = Except.ok none) := by
  refine ⟨?_, ?_, ?_, ?_⟩
  · intro dbq now
    cases dbq <;> exact ⟨_, rfl⟩
  · intro e now
    rfl
  · intro res
    cases res <;> exact ⟨_, rfl⟩
  · intro e
    rfl

/-- C8: the three message builders are pure total functions: any subtype
outside the known table yields the generic fallback text, and each known
subtype yields its template text. -/
theorem C8_message_builders_total :
    (∀ (e : Event) (t : String), t ∉ eventSubtypes →
        get_event_message e t = "Update for event \x27" ++ e.title ++ "\x27.") ∧
    (∀ (p : Payment) (t : String), t ∉ paymentSubtypes →
        get_payment_message p t = "Payment update for $" ++ p.amountStr ++ ".") ∧
    (∀ (g : Guest) (e : Event) (t : String), t ∉ guestSubtypes →
        get_guest_message g e t = "Guest update for " ++ g.name ++ ".") ∧
    (∀ e : Event,
        get_event_message e "event_created" =
          "New event \x27" ++ e.title ++ "\x27 has been created." ∧
        get_event_message e "event_updated" =
          "Event \x27" ++ e.title ++ "\x27 has been updated." ∧
        get_event_message e "event_cancelled" =
          "Event \x27" ++ e.title ++ "\x27 has been cancelled." ∧
        get_event_message e "event_reminder" =
          "Reminder: Event \x27" ++ e.title ++ "\x27 is coming up soon." ∧
        get_event_message e "event_started" =
          "Event \x27" ++ e.title ++ "\x27 has started." ∧
        get_event_message e "event_completed" =
          "Event \x27" ++ e.title ++ "\x27 has been completed.") ∧
    (∀ p : Payment,
        get_payment_message p "payment_received" =
          "Payment of $" ++ p.amountStr ++ " has been received." ∧
        get_payment_message p "payment_failed" =
          "Payment of $" ++ p.amountStr ++ " has failed." ∧
        get_payment_message p "payment_refunded" =
          "Payment of $" ++ p.amountStr ++ " has been refunded." ∧
        get_payment_message p "payment_pending" =
          "Payment of $" ++ p.amountStr ++ " is pending.") ∧
    (∀ (g : Guest) (e : Event),
        get_guest_message g e "guest_registered" =
          g.name ++ " has registered for \x27" ++ e.title ++ "\x27." ∧
        get_guest_message g e "guest_checked_in" =
          g.name ++ " has checked in for \x27" ++ e.title ++ "\x27." ∧
        get_guest_message g e "guest_rsvp_confirmed" =
          g.name ++ " has confirmed RSVP for \x27" ++ e.title ++ "\x27." ∧
        get_guest_message g e "guest_rsvp_declined" =
          g.name ++ " has declined RSVP for \x27" ++ e.title ++ "\x27.") := by
  refine ⟨?_, ?_, ?_, ?_, ?_, ?_⟩
  · intro e t h
    simp only [eventSubtypes, List.mem_cons, List.not_mem_nil, or_false,
      not_or] at h
    obtain ⟨h1, h2, h3, h4, h5, h6⟩ := h
    simp [get_event_message, h1, h2, h3, h4, h5, h6]
  · intro p t h
    simp only [paymentSubtypes, List.mem_cons, List.not_mem_nil, or_false,
      not_or] at h
    obtain ⟨h1, h2, h3, h4⟩ := h
    simp [get_payment_message, h1, h2, h3, h4]
  · intro g e t h
    simp only [guestSubtypes, List.mem_cons, List.not_mem_nil, or_false,
      not_or] at h
    obtain ⟨h1, h2, h3, h4⟩ := h
    simp [get_guest_message, h1, h2, h3, h4]
  · intro e
    refine ⟨?_, ?_, ?_, ?_, ?_, ?_⟩ <;> simp [get_event_message]
  · intro p
    refine ⟨?_, ?_, ?_, ?_⟩ <;> simp [get_payment_message]
  · intro g e
    refine ⟨?_, ?_, ?_, ?_⟩ <;> simp [get_guest_message]

/-- Example event row (no guests) for witnesses. -/
def evW : Event :=
  { eid := 5, title := "Gala", start_date := 200000, status := "planned",
    organizer_id := some 9, guests := [] }

/-- Example payment row for witnesses. -/
def payW : Payment :=
  { pid := 3, amountStr := "25.00", payment_type := "ticket",
    transaction_id := "tx", status := "completed" }

/-- Example guest row for witnesses. -/
def guW : Guest :=
  { gid := 1, name := "Ann", email := "ann@example.com", phone := some "123",
    ticket_number := "T1", rsvp_status := "confirmed",
    check_in_status := false }

/-- Witness for C8: an unknown subtype falls back to the generic text for
all three builders. -/
theorem C8_message_builders_witness :
    get_event_message evW "mystery" =
      "Update for event \x27" ++ evW.title ++ "\x27." ∧
    get_payment_message payW "mystery" =
      "Payment update for $" ++ payW.amountStr ++ "." ∧
    get_guest_message guW evW "mystery" =
      "Guest update for " ++ guW.name ++ "." :=
  ⟨C8_message_builders_total.1 evW "mystery" (by decide),
   C8_message_builders_total.2.1 payW "mystery" (by decide),
   C8_message_builders_total.2.2.1 guW evW "mystery" (by decide)⟩

/-- C9: in one run of the daily reminder job over the events table at
time `now`, for an event E in the 1-to-3-day window (E the unique event
carrying its id, G and Gp the unique guests carrying their ids within E):
the confirmed, not-checked-in guest G gets exactly one email reminder,
and exactly one SMS reminder when a phone is set (none otherwise), while
the pending guest Gp gets neither. -/
theorem C9_daily_reminders_per_guest (events : List Event) (now : Nat)
    (E : Event) (G Gp : Guest)
    (hE : events.filter (fun e => e.eid == E.eid) = [E])
    (hW : inReminderWindow now E = true)
    (hG : E.guests.filter (fun g => g.gid == G.gid) = [G])
    (hGc : G.rsvp_status = "confirmed") (hGn : G.check_in_status = false)
    (hP : E.guests.filter (fun g => g.gid == Gp.gid) = [Gp])
    (hPp : Gp.rsvp_status = "pending") :
    countA (SendAction.emailReminder G.gid E.eid)
      (dailyReminderActions events now) = 1 ∧
    countA (SendAction.smsReminder G.gid E.eid)
      (dailyReminderActions events now) =
      (if pyTruthyStr G.phone then 1 else 0) ∧
    countA (SendAction.emailReminder Gp.gid E.eid)
      (dailyReminderActions events now) = 0 ∧
    countA (SendAction.smsReminder Gp.gid E.eid)
      (dailyReminderActions events now) = 0 := by
  have hGact : guestReminderActions E G =
      SendAction.emailReminder G.gid E.eid ::
        (if pyTruthyStr G.phone then [SendAction.smsReminder G.gid E.eid]
         else []) := by
    simp [guestReminderActions, hGc, hGn]
  have hPact : guestReminderActions E Gp = [] := by
    simp [guestReminderActions, hPp]
  refine ⟨?_, ?_, ?_, ?_⟩
  · rw [countA_daily_eq events now E G
      (SendAction.emailReminder G.gid E.eid) hE hW hG rfl rfl, hGact]
    cases hph : pyTruthyStr G.phone <;> simp [hph, countA]
  · rw [countA_daily_eq events now E G
      (SendAction.smsReminder G.gid E.eid) hE hW hG rfl rfl, hGact]
    cases hph : pyTruthyStr G.phone <;> simp [hph, countA]
  · rw [countA_daily_eq events now E Gp
      (SendAction.emailReminder Gp.gid E.eid) hE hW hP rfl rfl, hPact]
    rfl
  · rw [countA_daily_eq events now E Gp
      (SendAction.smsReminder Gp.gid E.eid) hE hW hP rfl rfl, hPact]
    rfl

/-- Example pending guest, no phone. -/
def guP : Guest :=
  { gid := 2, name := "Bob", email := "bob@example.com", phone := none,
    ticket_number := "T2", rsvp_status := "pending",
    check_in_status := false }

/-- Example event starting in about 1.7 days from time 50000, with a
confirmed and a pending guest. -/
def evC9 : Event :=
  { eid := 5, title := "Gala", start_date := 200000, status := "planned",
    organizer_id := some 9, guests := [guW, guP] }

/-- Witness for C9: one run of the reminder job gives the confirmed
guest exactly one email plus one SMS, and the pending guest nothing. -/
theorem C9_daily_reminders_witness :
    countA (SendAction.emailReminder guW.gid evC9.eid)
      (dailyReminderActions [evC9] 50000) = 1 ∧
    countA (SendAction.smsReminder guW.gid evC9.eid)
      (dailyReminderActions [evC9] 50000) =
      (if pyTruthyStr guW.phone then 1 else 0) ∧
    countA (SendAction.emailReminder guP.gid evC9.eid)
      (dailyReminderActions [evC9] 50000) = 0 ∧
    countA (SendAction.smsReminder guP.gid evC9.eid)
      (dailyReminderActions [evC9] 50000) = 0 :=
  C9_daily_reminders_per_guest [evC9] 50000 evC9 guW guP
    (by decide) (by decide) (by decide) rfl rfl (by decide) rfl

/-- C10: for an event whose organizer id is falsy,
`send_event_notification` sends nothing (no state change, no emit) yet
still returns 1, while `send_guest_notification` returns false with no
state change in the same case. -/
theorem C10_no_organizer_one_vs_false (s : NSState) (e : Event) (g : Guest)
    (t : String) (extra : List (String × String)) (now : Nat)
    (h : pyTruthyNat e.organizer_id = false) :
    send_event_notification s e t extra now = (s, 1, []) ∧
    send_guest_notification s g e t now = (s, false, []) := by
  constructor
  · simp [send_event_notification, h]
  · simp [send_guest_notification, h]

/-- Example event with no organizer set. -/
def evNoOrg : Event :=
  { eid := 6, title := "Orphan", start_date := 100, status := "planned",
    organizer_id := none, guests := [] }

/-- Witness for C10 at a concrete organizer-less event. -/
theorem C10_no_organizer_witness :
    send_event_notification emptyState evNoOrg "guest_registered" [] 100 =
      (emptyState, 1, []) ∧
    send_guest_notification emptyState guW evNoOrg "guest_registered" 100 =
      (emptyState, false, []) :=
  C10_no_organizer_one_vs_false emptyState evNoOrg guW "guest_registered" [] 100 rfl

end EventParadise
